import Mathlib

/-!
Shallow embedding of the PlakarKorp `integration-http` storage adapter
(`storage/client.go`) together with the models of the Go standard-library
functions it relies on (`path.Clean`/`path.Join`, `net/url.Parse`,
`encoding/json` restricted to the adapter's envelope shapes, and standard
base64/hex codecs).  The per-operation functions are translated from the
source one by one; the theorems at the end of the file settle the frozen
claims about the adapter.
-/

set_option linter.unusedVariables false

deriving instance DecidableEq for Except

namespace HttpStore

/-- A byte, kept as a natural number (the source manipulates `[]byte`). -/
abbrev Byte := Nat

/-- Lower-case hex digit for a value below 16. -/
def hexDigit (n : Nat) : Char :=
  if n < 10 then Char.ofNat (48 + n) else Char.ofNat (97 + n - 10)

/-- Two-digit lower-case hex rendering of one byte. -/
def byteHex (b : Byte) : String :=
  String.mk [hexDigit (b / 16), hexDigit (b % 16)]

/-- Lower-case hex rendering of a byte string. -/
def bytesHex (bs : List Byte) : String :=
  String.mk (bs.foldr (fun b acc => hexDigit (b / 16) :: hexDigit (b % 16) :: acc) [])

/-- Value of a hex digit character, if it is one (upper or lower case). -/
def hexVal (c : Char) : Option Nat :=
  if '0' ≤ c ∧ c ≤ '9' then some (c.toNat - 48)
  else if 'a' ≤ c ∧ c ≤ 'f' then some (c.toNat - 97 + 10)
  else if 'A' ≤ c ∧ c ≤ 'F' then some (c.toNat - 65 + 10)
  else none

/-- Decode a hex character sequence into bytes; fails on odd length or a
non-hex character. -/
def hexDecodeChars : List Char → Option (List Byte)
  | [] => some []
  | c1 :: c2 :: rest => do
    let h ← hexVal c1
    let l ← hexVal c2
    let t ← hexDecodeChars rest
    some ((h * 16 + l) :: t)
  | _ => none

/-- Decode a hex string into bytes. -/
def hexDecode (s : String) : Option (List Byte) :=
  hexDecodeChars s.toList

/-- Value of a character of the standard base64 alphabet. -/
def b64Val (c : Char) : Option Nat :=
  if 'A' ≤ c ∧ c ≤ 'Z' then some (c.toNat - 65)
  else if 'a' ≤ c ∧ c ≤ 'z' then some (c.toNat - 97 + 26)
  else if '0' ≤ c ∧ c ≤ '9' then some (c.toNat - 48 + 52)
  else if c = '+' then some 62
  else if c = '/' then some 63
  else none

/-- Model of Go standard (padded) base64 decoding, as `encoding/json` applies
it to `[]byte` fields: groups of four characters, `=` padding required. -/
def b64DecodeChars : List Char → Option (List Byte)
  | [] => some []
  | c1 :: c2 :: c3 :: c4 :: rest => do
    let v1 ← b64Val c1
    let v2 ← b64Val c2
    if c3 = '=' then
      if c4 = '=' ∧ rest = [] then some [v1 * 4 + v2 / 16] else none
    else do
      let v3 ← b64Val c3
      if c4 = '=' then
        if rest = [] then some [v1 * 4 + v2 / 16, (v2 % 16) * 16 + v3 / 4]
        else none
      else do
        let v4 ← b64Val c4
        let t ← b64DecodeChars rest
        some ((v1 * 4 + v2 / 16) :: ((v2 % 16) * 16 + v3 / 4) ::
              ((v3 % 4) * 64 + v4) :: t)
  | _ => none

/-- Decode a standard padded base64 string into bytes. -/
def b64Decode (s : String) : Option (List Byte) :=
  b64DecodeChars s.toList

/-- Character of the standard base64 alphabet for a value below 64. -/
def b64Char (n : Nat) : Char :=
  if n < 26 then Char.ofNat (65 + n)
  else if n < 52 then Char.ofNat (97 + n - 26)
  else if n < 62 then Char.ofNat (48 + n - 52)
  else if n = 62 then '+' else '/'

/-- Model of Go standard (padded) base64 encoding, as `encoding/json`
produces for `[]byte` fields. -/
def b64EncodeChunks : List Byte → List Char
  | [] => []
  | [b1] => [b64Char (b1 / 4), b64Char ((b1 % 4) * 16), '=', '=']
  | [b1, b2] => [b64Char (b1 / 4), b64Char ((b1 % 4) * 16 + b2 / 16),
                 b64Char ((b2 % 16) * 4), '=']
  | b1 :: b2 :: b3 :: rest =>
      b64Char (b1 / 4) :: b64Char ((b1 % 4) * 16 + b2 / 16) ::
      b64Char ((b2 % 16) * 4 + b3 / 64) :: b64Char (b3 % 64) ::
      b64EncodeChunks rest

/-- Encode bytes as a standard padded base64 string. -/
def b64Encode (bs : List Byte) : String :=
  String.mk (b64EncodeChunks bs)

/-- Split a character sequence on `/` into path elements. -/
def splitSlash : List Char → List (List Char)
  | [] => [[]]
  | '/' :: rest => [] :: splitSlash rest
  | c :: rest =>
    match splitSlash rest with
    | comp :: comps => (c :: comp) :: comps
    | [] => [[c]]

/-- Join path elements with `/` separators. -/
def joinSlash : List (List Char) → List Char
  | [] => []
  | [c] => c
  | c :: rest => c ++ '/' :: joinSlash rest

/-- One step of the `path.Clean` element scan: `acc` is the reversed stack of
kept path elements.  Empty and `.` elements are dropped; `..` pops a kept
element, is dropped at the root of a rooted path, and is kept at the front of
a relative path. -/
def cleanStep (rooted : Bool) (acc : List (List Char)) (c : List Char) : List (List Char) :=
  if c = [] ∨ c = ['.'] then acc
  else if c = ['.', '.'] then
    match acc with
    | [] => if rooted then [] else [['.', '.']]
    | top :: rest => if top = ['.', '.'] then c :: top :: rest else rest
  else c :: acc

/-- Model of Go `path.Clean`: purely lexical simplification of a
slash-separated path — drops empty and `.` elements, resolves `..` against
preceding elements (never above the root of a rooted path), and removes any
trailing slash. -/
def pathClean (p : String) : String :=
  match p.data with
  | [] => "."
  | c0 :: cs0 =>
    let rooted := c0 = '/'
    let comps := ((splitSlash (c0 :: cs0)).foldl (cleanStep rooted) []).reverse
    if rooted then String.mk ('/' :: joinSlash comps)
    else if comps = [] then "." else String.mk (joinSlash comps)

/-- Model of Go `path.Join` for two elements: empty elements are dropped and
the slash-joined remainder is passed through `path.Clean`; joining two empty
strings yields the empty string. -/
def pathJoin (a b : String) : String :=
  if a = "" ∧ b = "" then ""
  else if a = "" then pathClean b
  else if b = "" then pathClean a
  else pathClean (a ++ "/" ++ b)

/-- A parsed URL as this adapter uses it: scheme, authority and path.
Query, fragment, user info and host validation of Go `net/url` are not
modelled — none of the adapter's configurations or composed request URLs
carry them. -/
structure URL where
  scheme : String
  host : String
  path : String
deriving DecidableEq, Repr

/-- Lower-case an ASCII letter (Go lower-cases the parsed scheme). -/
def charLower (c : Char) : Char :=
  if 'A' ≤ c ∧ c ≤ 'Z' then Char.ofNat (c.toNat + 32) else c

/-- Model of Go `net/url.getScheme`: scan for `scheme:`; a scheme starts
with a letter and continues with letters, digits, `+`, `-`, `.`.  A `:` in
first position is the `missing protocol scheme` error; any other character
outside the scheme alphabet means the whole string is scheme-less. -/
def getSchemeAux (orig : String) : List Char → List Char → Except String (String × List Char)
  | [], _ => .ok ("", orig.data)
  | c :: cs, acc =>
    if c.isAlpha then getSchemeAux orig cs (c :: acc)
    else if c.isDigit ∨ c = '+' ∨ c = '-' ∨ c = '.' then
      if acc = [] then .ok ("", orig.data) else getSchemeAux orig cs (c :: acc)
    else if c = ':' then
      if acc = [] then .error "missing protocol scheme"
      else .ok (String.mk acc.reverse, cs)
    else .ok ("", orig.data)

/-- Model of Go `net/url.Parse` for the URL shapes this adapter meets:
rejects ASCII control characters, extracts and lower-cases the scheme, and
splits `//authority/path`.  A string without a scheme or authority parses
as a path-only (relative) URL — Go's `url.Parse` succeeds on it. -/
def urlParse (s : String) : Except String URL :=
  if s.data.any (fun c => c.toNat < 32 ∨ c.toNat = 127) then
    .error "net/url: invalid control character in URL"
  else
    match getSchemeAux s s.data [] with
    | .error e => .error e
    | .ok (scheme, rest) =>
      let schemeLc := String.mk (scheme.data.map charLower)
      match rest with
      | '/' :: '/' :: afterSlashes =>
        let host := afterSlashes.takeWhile (fun c => c ≠ '/')
        let path := afterSlashes.dropWhile (fun c => c ≠ '/')
        .ok { scheme := schemeLc, host := String.mk host, path := String.mk path }
      | _ => .ok { scheme := schemeLc, host := "", path := String.mk rest }

/-- Model of Go `url.URL.String` for scheme/host/path URLs:
`scheme:` when a scheme is set, `//host` when a host is set, then the path. -/
def urlString (u : URL) : String :=
  (if u.scheme = "" then "" else u.scheme ++ ":") ++
  (if u.host = "" then "" else "//" ++ u.host) ++ u.path

/-- A JSON value.  Numbers are modelled as integers: every numeric field of
this adapter's envelopes is integral. -/
inductive Json where
  | null
  | bool (b : Bool)
  | num (n : Int)
  | str (s : String)
  | arr (elems : List Json)
  | obj (fields : List (String × Json))

/-- Skip JSON whitespace. -/
def skipWs : List Char → List Char
  | c :: cs => if c = ' ' ∨ c = '\t' ∨ c = '\n' ∨ c = '\r' then skipWs cs else c :: cs
  | [] => []

/-- Parse the remainder of a JSON string literal (after the opening quote).
Escapes other than `\" \\ \/ \n \t \r` are not modelled: no envelope of
this adapter produces them. -/
def parseStrChars : List Char → Option (List Char × List Char)
  | [] => none
  | '"' :: rest => some ([], rest)
  | '\\' :: e :: rest => do
    let c ← match e with
      | '"' => some '"'
      | '\\' => some '\\'
      | '/' => some '/'
      | 'n' => some '\n'
      | 't' => some '\t'
      | 'r' => some '\r'
      | _ => none
    let (cs, rem) ← parseStrChars rest
    some (c :: cs, rem)
  | c :: rest => do
    let (cs, rem) ← parseStrChars rest
    some (c :: cs, rem)

/-- Leading decimal digits of a character sequence, and the rest. -/
def takeDigits : List Char → List Char × List Char
  | c :: cs =>
    if c.isDigit then
      let (ds, rest) := takeDigits cs
      (c :: ds, rest)
    else ([], c :: cs)
  | [] => ([], [])

/-- Value of a decimal digit sequence. -/
def digitsToNat (ds : List Char) : Nat :=
  ds.foldl (fun acc c => acc * 10 + (c.toNat - 48)) 0

/-- Parse a JSON integer (optional minus sign, then digits).  Fractions and
exponents are not modelled: the adapter's envelopes carry only integers. -/
def parseNum : List Char → Option (Json × List Char)
  | '-' :: cs =>
    match takeDigits cs with
    | ([], _) => none
    | (ds, rest) => some (Json.num (-(digitsToNat ds : Int)), rest)
  | cs =>
    match takeDigits cs with
    | ([], _) => none
    | (ds, rest) => some (Json.num (digitsToNat ds), rest)

mutual

/-- Parse one JSON value; `fuel` bounds the recursion depth. -/
def parseJson : Nat → List Char → Option (Json × List Char)
  | 0, _ => none
  | Nat.succ fuel, cs =>
    match skipWs cs with
    | [] => none
    | '"' :: rest =>
      match parseStrChars rest with
      | some (s, r) => some (Json.str (String.mk s), r)
      | none => none
    | '{' :: rest =>
      match skipWs rest with
      | '}' :: r => some (Json.obj [], r)
      | r =>
        match parseMembers fuel r with
        | some (fs, r2) => some (Json.obj fs, r2)
        | none => none
    | '[' :: rest =>
      match skipWs rest with
      | ']' :: r => some (Json.arr [], r)
      | r =>
        match parseElems fuel r with
        | some (es, r2) => some (Json.arr es, r2)
        | none => none
    | 't' :: 'r' :: 'u' :: 'e' :: rest => some (Json.bool true, rest)
    | 'f' :: 'a' :: 'l' :: 's' :: 'e' :: rest => some (Json.bool false, rest)
    | 'n' :: 'u' :: 'l' :: 'l' :: rest => some (Json.null, rest)
    | other => parseNum other

/-- Parse the members of a JSON object (after `{`, at least one member). -/
def parseMembers : Nat → List Char → Option (List (String × Json) × List Char)
  | 0, _ => none
  | Nat.succ fuel, cs =>
    match skipWs cs with
    | '"' :: rest =>
      match parseStrChars rest with
      | none => none
      | some (k, r1) =>
        match skipWs r1 with
        | ':' :: r2 =>
          match parseJson fuel r2 with
          | none => none
          | some (v, r3) =>
            match skipWs r3 with
            | ',' :: r4 =>
              match parseMembers fuel r4 with
              | some (fs, r5) => some ((String.mk k, v) :: fs, r5)
              | none => none
            | '}' :: r4 => some ([(String.mk k, v)], r4)
            | _ => none
        | _ => none
    | _ => none

/-- Parse the elements of a JSON array (after `[`, at least one element). -/
def parseElems : Nat → List Char → Option (List Json × List Char)
  | 0, _ => none
  | Nat.succ fuel, cs =>
    match parseJson fuel cs with
    | none => none
    | some (v, r1) =>
      match skipWs r1 with
      | ',' :: r2 =>
        match parseElems fuel r2 with
        | some (es, r3) => some (v :: es, r3)
        | none => none
      | ']' :: r2 => some ([v], r2)
      | _ => none

end

/-- Model of Go `json.Decoder.Decode` on the response body: read the first
JSON value from the stream (trailing data is left unread); an empty or
malformed body is a decode error. -/
def jsonDecode (body : String) : Except String Json :=
  match parseJson (body.length + 1) body.data with
  | some (v, _) => .ok v
  | none => .error "invalid JSON in response body"

/-- Modelled from the spec: a MAC is a fixed-width 256-bit (32-byte) opaque
content identifier; on the wire it serializes as its fixed-width byte
encoding, rendered as a hex string (the concrete envelope types live in the
external `network` package). -/
abbrev MAC := List Byte

/-- Look up a JSON object field; with a duplicated key the later member wins,
as Go's sequential decoding makes it. -/
def jsonField : List (String × Json) → String → Option Json
  | [], _ => none
  | (k, v) :: rest, key =>
    match jsonField rest key with
    | some v' => some v'
    | none => if k = key then some v else none

/-- Go decoding of a `string` struct field: absent or `null` leaves the zero
value `""`; a non-string value is a decode error. -/
def getStrField (fields : List (String × Json)) (key : String) : Except String String :=
  match jsonField fields key with
  | none => .ok ""
  | some Json.null => .ok ""
  | some (Json.str s) => .ok s
  | some _ => .error ("cannot unmarshal field " ++ key ++ " into string")

/-- Go decoding of a `[]byte` struct field: absent or `null` leaves the zero
value (modelled as `[]`); a string value is base64-decoded; anything else is
a decode error. -/
def getBytesField (fields : List (String × Json)) (key : String) : Except String (List Byte) :=
  match jsonField fields key with
  | none => .ok []
  | some Json.null => .ok []
  | some (Json.str s) =>
    match b64Decode s with
    | some bs => .ok bs
    | none => .error ("illegal base64 data in field " ++ key)
  | some _ => .error ("cannot unmarshal field " ++ key ++ " into bytes")

/-- Decode one MAC from its JSON form (a 64-character hex string). -/
def decodeMacJson : Json → Except String MAC
  | Json.str s =>
    match hexDecode s with
    | some bs => if bs.length = 32 then .ok bs else .error "invalid MAC length"
    | none => .error "invalid MAC encoding"
  | _ => .error "cannot unmarshal MAC"

/-- Decode a list of MACs. -/
def decodeMacList : List Json → Except String (List MAC)
  | [] => .ok []
  | j :: js => do
    let m ← decodeMacJson j
    let ms ← decodeMacList js
    .ok (m :: ms)

/-- Go decoding of a `[]MAC` struct field: absent or `null` leaves the zero
value — a nil slice, modelled as `none`; an array decodes element-wise to
`some` list. -/
def getMacListField (fields : List (String × Json)) (key : String) :
    Except String (Option (List MAC)) :=
  match jsonField fields key with
  | none => .ok none
  | some Json.null => .ok none
  | some (Json.arr js) =>
    match decodeMacList js with
    | .ok ms => .ok (some ms)
    | .error e => .error e
  | some _ => .error ("cannot unmarshal field " ++ key ++ " into MAC list")

/-- `network.ResOpen`: `configuration` bytes and an `error` string. -/
structure ResOpen where
  configuration : List Byte
  err : String
deriving DecidableEq, Repr

/-- `network.ResGetStates`: a `macs` list and an `error` string. -/
structure ResGetStates where
  macs : Option (List MAC)
  err : String
deriving DecidableEq, Repr

/-- `network.ResPutState`: an `error` string. -/
structure ResPutState where
  err : String
deriving DecidableEq, Repr

/-- `network.ResGetState`: `data` bytes and an `error` string. -/
structure ResGetState where
  data : List Byte
  err : String
deriving DecidableEq, Repr

/-- `network.ResDeleteState`: an `error` string. -/
structure ResDeleteState where
  err : String
deriving DecidableEq, Repr

/-- `network.ResGetPackfiles`: a `macs` list and an `error` string. -/
structure ResGetPackfiles where
  macs : Option (List MAC)
  err : String
deriving DecidableEq, Repr

/-- `network.ResPutPackfile`: an `error` string. -/
structure ResPutPackfile where
  err : String
deriving DecidableEq, Repr

/-- `network.ResGetPackfile`: `data` bytes and an `error` string. -/
structure ResGetPackfile where
  data : List Byte
  err : String
deriving DecidableEq, Repr

/-- `network.ResGetPackfileBlob`: `data` bytes and an `error` string. -/
structure ResGetPackfileBlob where
  data : List Byte
  err : String
deriving DecidableEq, Repr

/-- `network.ResDeletePackfile`: an `error` string. -/
structure ResDeletePackfile where
  err : String
deriving DecidableEq, Repr

/-- `network.ResGetLocks`: a `locks` list and an `error` string. -/
structure ResGetLocks where
  locks : Option (List MAC)
  err : String
deriving DecidableEq, Repr

/-- `network.ResPutLock`: an `error` string. -/
structure ResPutLock where
  err : String
deriving DecidableEq, Repr

/-- `network.ResGetLock`: `data` bytes and an `error` string. -/
structure ResGetLock where
  data : List Byte
  err : String
deriving DecidableEq, Repr

/-- `network.ResDeleteLock`: an `error` string. -/
structure ResDeleteLock where
  err : String
deriving DecidableEq, Repr

/-- Decode a body whose envelope carries only an `error` string; `null`
decodes to the zero envelope, a non-object is a decode error (Go
`json.Decoder.Decode` into a struct). -/
def decodeErrOnly (body : String) : Except String String :=
  match jsonDecode body with
  | .error e => .error e
  | .ok Json.null => .ok ""
  | .ok (Json.obj fs) => getStrField fs "error"
  | .ok _ => .error "cannot unmarshal response envelope"

/-- Decode a body whose envelope carries `data` bytes and an `error`
string. -/
def decodeDataErr (body : String) : Except String (List Byte × String) :=
  match jsonDecode body with
  | .error e => .error e
  | .ok Json.null => .ok ([], "")
  | .ok (Json.obj fs) => do
    let d ← getBytesField fs "data"
    let e ← getStrField fs "error"
    .ok (d, e)
  | .ok _ => .error "cannot unmarshal response envelope"

/-- Decode a body whose envelope carries a MAC list under `key` and an
`error` string. -/
def decodeMacsErr (key : String) (body : String) :
    Except String (Option (List MAC) × String) :=
  match jsonDecode body with
  | .error e => .error e
  | .ok Json.null => .ok (none, "")
  | .ok (Json.obj fs) => do
    let ms ← getMacListField fs key
    let e ← getStrField fs "error"
    .ok (ms, e)
  | .ok _ => .error "cannot unmarshal response envelope"

/-- Decode `network.ResOpen` from a response body. -/
def decodeResOpen (body : String) : Except String ResOpen :=
  match jsonDecode body with
  | .error e => .error e
  | .ok Json.null => .ok { configuration := [], err := "" }
  | .ok (Json.obj fs) => do
    let c ← getBytesField fs "configuration"
    let e ← getStrField fs "error"
    .ok { configuration := c, err := e }
  | .ok _ => .error "cannot unmarshal response envelope"

/-- Decode `network.ResGetStates` from a response body. -/
def decodeResGetStates (body : String) : Except String ResGetStates :=
  (decodeMacsErr "macs" body).map fun p => { macs := p.1, err := p.2 }

/-- Decode `network.ResPutState` from a response body. -/
def decodeResPutState (body : String) : Except String ResPutState :=
  (decodeErrOnly body).map fun e => { err := e }

/-- Decode `network.ResGetState` from a response body. -/
def decodeResGetState (body : String) : Except String ResGetState :=
  (decodeDataErr body).map fun p => { data := p.1, err := p.2 }

/-- Decode `network.ResDeleteState` from a response body. -/
def decodeResDeleteState (body : String) : Except String ResDeleteState :=
  (decodeErrOnly body).map fun e => { err := e }

/-- Decode `network.ResGetPackfiles` from a response body. -/
def decodeResGetPackfiles (body : String) : Except String ResGetPackfiles :=
  (decodeMacsErr "macs" body).map fun p => { macs := p.1, err := p.2 }

/-- Decode `network.ResPutPackfile` from a response body. -/
def decodeResPutPackfile (body : String) : Except String ResPutPackfile :=
  (decodeErrOnly body).map fun e => { err := e }

/-- Decode `network.ResGetPackfile` from a response body. -/
def decodeResGetPackfile (body : String) : Except String ResGetPackfile :=
  (decodeDataErr body).map fun p => { data := p.1, err := p.2 }

/-- Decode `network.ResGetPackfileBlob` from a response body. -/
def decodeResGetPackfileBlob (body : String) : Except String ResGetPackfileBlob :=
  (decodeDataErr body).map fun p => { data := p.1, err := p.2 }

/-- Decode `network.ResDeletePackfile` from a response body. -/
def decodeResDeletePackfile (body : String) : Except String ResDeletePackfile :=
  (decodeErrOnly body).map fun e => { err := e }

/-- Decode `network.ResGetLocks` from a response body. -/
def decodeResGetLocks (body : String) : Except String ResGetLocks :=
  (decodeMacsErr "locks" body).map fun p => { locks := p.1, err := p.2 }

/-- Decode `network.ResPutLock` from a response body. -/
def decodeResPutLock (body : String) : Except String ResPutLock :=
  (decodeErrOnly body).map fun e => { err := e }

/-- Decode `network.ResGetLock` from a response body. -/
def decodeResGetLock (body : String) : Except String ResGetLock :=
  (decodeDataErr body).map fun p => { data := p.1, err := p.2 }

/-- Decode `network.ResDeleteLock` from a response body. -/
def decodeResDeleteLock (body : String) : Except String ResDeleteLock :=
  (decodeErrOnly body).map fun e => { err := e }

/-- A JSON string literal for strings that contain no character needing an
escape (hex, base64 and decimal renderings never do). -/
def jsonStr (s : String) : String := "\"" ++ s ++ "\""

/-- A MAC in its JSON form: a 64-character hex string. -/
def marshalMac (m : MAC) : String := jsonStr (bytesHex m)

/-- `json.Marshal(network.ReqOpen{})` — the empty envelope. -/
def marshalReqOpen : String := "{}"

/-- `json.Marshal(network.ReqGetStates{})` — the empty envelope. -/
def marshalReqGetStates : String := "{}"

/-- `json.Marshal(network.ReqGetPackfiles{})` — the empty envelope. -/
def marshalReqGetPackfiles : String := "{}"

/-- `json.Marshal(&network.ReqGetLocks{})` — the empty envelope. -/
def marshalReqGetLocks : String := "{}"

/-- A request envelope carrying one `mac` field. -/
def marshalReqMac (m : MAC) : String :=
  "\x7b\"mac\":" ++ marshalMac m ++ "\x7d"

/-- A request envelope carrying `mac` and `data` fields. -/
def marshalReqMacData (m : MAC) (data : List Byte) : String :=
  "\x7b\"mac\":" ++ marshalMac m ++ ",\"data\":" ++ jsonStr (b64Encode data) ++ "\x7d"

/-- `json.Marshal(network.ReqGetPackfileBlob{...})`: `mac`, `offset` and
`length` fields (`uint64`/`uint32` in Go; overflow plays no role here). -/
def marshalReqGetPackfileBlob (m : MAC) (offset : Nat) (length : Nat) : String :=
  "\x7b\"mac\":" ++ marshalMac m ++ ",\"offset\":" ++ toString offset ++
  ",\"length\":" ++ toString length ++ "\x7d"

/-- The calling `context.Context`, reduced to its cancellation state
(`true` = already cancelled).  The adapter's source receives a context in
every operation and never reads it. -/
abbrev Ctx := Bool

/-- An outbound HTTP request as the adapter builds it: method, composed
target URL, the one header it sets, and the marshalled body. -/
structure Request where
  method : String
  url : String
  contentType : String
  body : String
deriving DecidableEq, Repr

/-- An HTTP response: status code and body. -/
structure HttpResponse where
  status : Nat
  body : String
deriving DecidableEq, Repr

/-- The transport oracle standing for `http.DefaultClient.Do`: maps the
built request to a response, or to a network-level error. -/
def Transport := Request → Except String HttpResponse

/-- The adapter's error vocabulary, tagged by provenance: construction
failure, network-level failure from the transport, payload-read failure,
JSON decode failure, and a server-reported error string. -/
inductive StoreErr where
  | config (msg : String)
  | transport (msg : String)
  | readFail (msg : String)
  | decode (msg : String)
  | remote (msg : String)
deriving DecidableEq, Repr

/-- The `Store` struct of `storage/client.go`: an opaque configuration
(never read or written by the adapter), the `Repository` string, and the
parsed endpoint URL. -/
structure Store where
  config : Unit
  repository : String
  location : URL
deriving DecidableEq, Repr

/-- Read of a Go `map[string]string`: a missing key yields `""`. -/
def lookupConfig (cfg : List (String × String)) (key : String) : String :=
  match cfg.find? (fun kv => kv.1 = key) with
  | some kv => kv.2
  | none => ""

/-- `NewStore` of `storage/client.go`: parse `storeConfig["location"]` with
`url.Parse`; on parse failure return the `invalid URL` error, otherwise an
adapter holding the parsed URL.  No other validation is performed. -/
def NewStore (ctx : Ctx) (proto : String) (storeConfig : List (String × String)) :
    Except String Store :=
  match urlParse (lookupConfig storeConfig "location") with
  | .error e =>
    .error ("invalid URL \"" ++ lookupConfig storeConfig "location" ++ "\": " ++ e)
  | .ok location => .ok { config := (), repository := "", location := location }

/-- The result of an operation: the adapter value after the call, the
requests it issued, the Go return value, and the Go error slot. -/
structure Outcome (α : Type) where
  store : Store
  trace : List Request
  value : α
  err : Option StoreErr
deriving DecidableEq, Repr

/-- The outcome of Go `io.ReadAll` on the payload reader handed to a Put
operation: either the full byte payload or a read error. -/
def GoReader := Except String (List Byte)

/-- The `io.ReadCloser` values this adapter returns: always
`io.NopCloser` over an in-memory byte buffer. -/
inductive ReadCloser where
  | nopCloser (data : List Byte)
deriving DecidableEq, Repr

/-- Reading the returned stream to the end. -/
def readAllRC : ReadCloser → List Byte
  | .nopCloser data => data

/-- Closing the returned stream: `io.NopCloser`'s `Close` always returns
`nil`. -/
def closeRC : ReadCloser → Option String
  | .nopCloser _ => none

/-- `sendRequest` of `storage/client.go`: join the endpoint path with the
operation's subpath via `path.Join`, build the request with the marshalled
envelope (each caller passes `json.Marshal` of its payload) and the
`Content-Type: application/json` header, and hand it to the transport. -/
def sendRequest (s : Store) (t : Transport) (method requestType body : String) :
    Request × Except String HttpResponse :=
  let u : URL := { s.location with path := pathJoin s.location.path requestType }
  let req : Request := { method := method, url := urlString u,
                         contentType := "application/json", body := body }
  (req, t req)

/-- `Create`: a no-op returning `nil`. -/
def Create (s : Store) (ctx : Ctx) (config : List Byte) : Outcome Unit :=
  ⟨s, [], (), none⟩

/-- `Open`: GET `/` with the empty envelope; decode `ResOpen`; a non-empty
envelope error fails; otherwise return the configuration bytes. -/
def Open (s : Store) (ctx : Ctx) (t : Transport) : Outcome (Option (List Byte)) :=
  let (req, r) := sendRequest s t "GET" "/" marshalReqOpen
  match r with
  | .error e => ⟨s, [req], none, some (.transport e)⟩
  | .ok resp =>
    match decodeResOpen resp.body with
    | .error e => ⟨s, [req], none, some (.decode e)⟩
    | .ok env =>
      if env.err ≠ "" then ⟨s, [req], none, some (.remote env.err)⟩
      else ⟨s, [req], some env.configuration, none⟩

/-- `Close`: a no-op returning `nil`. -/
def Close (s : Store) (ctx : Ctx) : Outcome Unit :=
  ⟨s, [], (), none⟩

/-- Modelled from the spec: the host's storage-mode bitmask (the adapter
always reports itself read-write); the read flag. -/
def ModeRead : Nat := 1

/-- Modelled from the spec: the write flag of the storage-mode bitmask. -/
def ModeWrite : Nat := 2

/-- `Mode`: always `storage.ModeRead | storage.ModeWrite`, no request. -/
def Mode (s : Store) (ctx : Ctx) : Outcome Nat :=
  ⟨s, [], ModeRead ||| ModeWrite, none⟩

/-- `Size`: always the unknown-size sentinel `-1`, no request. -/
def Size (s : Store) (ctx : Ctx) : Outcome Int :=
  ⟨s, [], -1, none⟩

/-- `Location`: the stored endpoint URL rendered back to a string. -/
def Location (s : Store) (ctx : Ctx) : Outcome String :=
  ⟨s, [], urlString s.location, none⟩

/-- `GetStates`: GET `/states` with the empty envelope; decode
`ResGetStates`; non-empty envelope error fails with a `nil` list; otherwise
return the envelope's MAC list. -/
def GetStates (s : Store) (ctx : Ctx) (t : Transport) : Outcome (Option (List MAC)) :=
  let (req, r) := sendRequest s t "GET" "/states" marshalReqGetStates
  match r with
  | .error e => ⟨s, [req], none, some (.transport e)⟩
  | .ok resp =>
    match decodeResGetStates resp.body with
    | .error e => ⟨s, [req], none, some (.decode e)⟩
    | .ok env =>
      if env.err ≠ "" then ⟨s, [req], none, some (.remote env.err)⟩
      else ⟨s, [req], env.macs, none⟩

/-- `PutState`: read the payload fully (`io.ReadAll`), PUT `/state` with the
`mac`+`data` envelope; on success return the payload length. -/
def PutState (s : Store) (ctx : Ctx) (t : Transport) (mac : MAC) (rd : GoReader) :
    Outcome Int :=
  match rd with
  | .error e => ⟨s, [], 0, some (.readFail e)⟩
  | .ok data =>
    let (req, r) := sendRequest s t "PUT" "/state" (marshalReqMacData mac data)
    match r with
    | .error e => ⟨s, [req], 0, some (.transport e)⟩
    | .ok resp =>
      match decodeResPutState resp.body with
      | .error e => ⟨s, [req], 0, some (.decode e)⟩
      | .ok env =>
        if env.err ≠ "" then ⟨s, [req], 0, some (.remote env.err)⟩
        else ⟨s, [req], (data.length : Int), none⟩

/-- `GetState`: GET `/state` with the `mac` envelope; on success return a
`NopCloser` over the envelope's data bytes. -/
def GetState (s : Store) (ctx : Ctx) (t : Transport) (mac : MAC) :
    Outcome (Option ReadCloser) :=
  let (req, r) := sendRequest s t "GET" "/state" (marshalReqMac mac)
  match r with
  | .error e => ⟨s, [req], none, some (.transport e)⟩
  | .ok resp =>
    match decodeResGetState resp.body with
    | .error e => ⟨s, [req], none, some (.decode e)⟩
    | .ok env =>
      if env.err ≠ "" then ⟨s, [req], none, some (.remote env.err)⟩
      else ⟨s, [req], some (ReadCloser.nopCloser env.data), none⟩

/-- `DeleteState`: DELETE `/state` with the `mac` envelope. -/
def DeleteState (s : Store) (ctx : Ctx) (t : Transport) (mac : MAC) : Outcome Unit :=
  let (req, r) := sendRequest s t "DELETE" "/state" (marshalReqMac mac)
  match r with
  | .error e => ⟨s, [req], (), some (.transport e)⟩
  | .ok resp =>
    match decodeResDeleteState resp.body with
    | .error e => ⟨s, [req], (), some (.decode e)⟩
    | .ok env =>
      if env.err ≠ "" then ⟨s, [req], (), some (.remote env.err)⟩
      else ⟨s, [req], (), none⟩

/-- `GetPackfiles`: GET `/packfiles` with the empty envelope. -/
def GetPackfiles (s : Store) (ctx : Ctx) (t : Transport) : Outcome (Option (List MAC)) :=
  let (req, r) := sendRequest s t "GET" "/packfiles" marshalReqGetPackfiles
  match r with
  | .error e => ⟨s, [req], none, some (.transport e)⟩
  | .ok resp =>
    match decodeResGetPackfiles resp.body with
    | .error e => ⟨s, [req], none, some (.decode e)⟩
    | .ok env =>
      if env.err ≠ "" then ⟨s, [req], none, some (.remote env.err)⟩
      else ⟨s, [req], env.macs, none⟩

/-- `PutPackfile`: read the payload fully, PUT `/packfile` with the
`mac`+`data` envelope; on success return the payload length. -/
def PutPackfile (s : Store) (ctx : Ctx) (t : Transport) (mac : MAC) (rd : GoReader) :
    Outcome Int :=
  match rd with
  | .error e => ⟨s, [], 0, some (.readFail e)⟩
  | .ok data =>
    let (req, r) := sendRequest s t "PUT" "/packfile" (marshalReqMacData mac data)
    match r with
    | .error e => ⟨s, [req], 0, some (.transport e)⟩
    | .ok resp =>
      match decodeResPutPackfile resp.body with
      | .error e => ⟨s, [req], 0, some (.decode e)⟩
      | .ok env =>
        if env.err ≠ "" then ⟨s, [req], 0, some (.remote env.err)⟩
        else ⟨s, [req], (data.length : Int), none⟩

/-- `GetPackfile`: GET `/packfile` with the `mac` envelope; on success
return a `NopCloser` over the envelope's data bytes. -/
def GetPackfile (s : Store) (ctx : Ctx) (t : Transport) (mac : MAC) :
    Outcome (Option ReadCloser) :=
  let (req, r) := sendRequest s t "GET" "/packfile" (marshalReqMac mac)
  match r with
  | .error e => ⟨s, [req], none, some (.transport e)⟩
  | .ok resp =>
    match decodeResGetPackfile resp.body with
    | .error e => ⟨s, [req], none, some (.decode e)⟩
    | .ok env =>
      if env.err ≠ "" then ⟨s, [req], none, some (.remote env.err)⟩
      else ⟨s, [req], some (ReadCloser.nopCloser env.data), none⟩

/-- `GetPackfileBlob`: GET `/packfile/blob` with the `mac`+`offset`+`length`
envelope; on success return a `NopCloser` over the envelope's data bytes. -/
def GetPackfileBlob (s : Store) (ctx : Ctx) (t : Transport) (mac : MAC)
    (offset : Nat) (length : Nat) : Outcome (Option ReadCloser) :=
  let (req, r) := sendRequest s t "GET" "/packfile/blob"
      (marshalReqGetPackfileBlob mac offset length)
  match r with
  | .error e => ⟨s, [req], none, some (.transport e)⟩
  | .ok resp =>
    match decodeResGetPackfileBlob resp.body with
    | .error e => ⟨s, [req], none, some (.decode e)⟩
    | .ok env =>
      if env.err ≠ "" then ⟨s, [req], none, some (.remote env.err)⟩
      else ⟨s, [req], some (ReadCloser.nopCloser env.data), none⟩

/-- `DeletePackfile`: DELETE `/packfile` with the `mac` envelope. -/
def DeletePackfile (s : Store) (ctx : Ctx) (t : Transport) (mac : MAC) : Outcome Unit :=
  let (req, r) := sendRequest s t "DELETE" "/packfile" (marshalReqMac mac)
  match r with
  | .error e => ⟨s, [req], (), some (.transport e)⟩
  | .ok resp =>
    match decodeResDeletePackfile resp.body with
    | .error e => ⟨s, [req], (), some (.decode e)⟩
    | .ok env =>
      if env.err ≠ "" then ⟨s, [req], (), some (.remote env.err)⟩
      else ⟨s, [req], (), none⟩

/-- `GetLocks`: GET `/locks` with the empty envelope; every failure path
returns the empty (non-nil) slice `[]objects.MAC{}`. -/
def GetLocks (s : Store) (ctx : Ctx) (t : Transport) : Outcome (Option (List MAC)) :=
  let (req, r) := sendRequest s t "GET" "/locks" marshalReqGetLocks
  match r with
  | .error e => ⟨s, [req], some [], some (.transport e)⟩
  | .ok resp =>
    match decodeResGetLocks resp.body with
    | .error e => ⟨s, [req], some [], some (.decode e)⟩
    | .ok env =>
      if env.err ≠ "" then ⟨s, [req], some [], some (.remote env.err)⟩
      else ⟨s, [req], env.locks, none⟩

/-- `PutLock`: read the payload fully, PUT `/lock` with the `mac`+`data`
envelope; on success return the payload length. -/
def PutLock (s : Store) (ctx : Ctx) (t : Transport) (lockID : MAC) (rd : GoReader) :
    Outcome Int :=
  match rd with
  | .error e => ⟨s, [], 0, some (.readFail e)⟩
  | .ok data =>
    let (req, r) := sendRequest s t "PUT" "/lock" (marshalReqMacData lockID data)
    match r with
    | .error e => ⟨s, [req], 0, some (.transport e)⟩
    | .ok resp =>
      match decodeResPutLock resp.body with
      | .error e => ⟨s, [req], 0, some (.decode e)⟩
      | .ok env =>
        if env.err ≠ "" then ⟨s, [req], 0, some (.remote env.err)⟩
        else ⟨s, [req], (data.length : Int), none⟩

/-- `GetLock`: GET `/lock` with the `mac` envelope; on success return a
`NopCloser` over the envelope's data bytes (`bytes.NewReader`). -/
def GetLock (s : Store) (ctx : Ctx) (t : Transport) (lockID : MAC) :
    Outcome (Option ReadCloser) :=
  let (req, r) := sendRequest s t "GET" "/lock" (marshalReqMac lockID)
  match r with
  | .error e => ⟨s, [req], none, some (.transport e)⟩
  | .ok resp =>
    match decodeResGetLock resp.body with
    | .error e => ⟨s, [req], none, some (.decode e)⟩
    | .ok env =>
      if env.err ≠ "" then ⟨s, [req], none, some (.remote env.err)⟩
      else ⟨s, [req], some (ReadCloser.nopCloser env.data), none⟩

/-- `DeleteLock`: DELETE `/lock` with the `mac` envelope. -/
def DeleteLock (s : Store) (ctx : Ctx) (t : Transport) (lockID : MAC) : Outcome Unit :=
  let (req, r) := sendRequest s t "DELETE" "/lock" (marshalReqMac lockID)
  match r with
  | .error e => ⟨s, [req], (), some (.transport e)⟩
  | .ok resp =>
    match decodeResDeleteLock resp.body with
    | .error e => ⟨s, [req], (), some (.decode e)⟩
    | .ok env =>
      if env.err ≠ "" then ⟨s, [req], (), some (.remote env.err)⟩
      else ⟨s, [req], (), none⟩

/-- A transport answering every request with the same response. -/
def constT (status : Nat) (body : String) : Transport := fun _ => .ok ⟨status, body⟩

/-- A transport failing every request with a network-level error. -/
def errT (msg : String) : Transport := fun _ => .error msg

/-- The adapter of the spec's end-to-end example, constructed from
`location = "https://store.example.com/repo"`. -/
def exampleStore : Store := ⟨(), "", ⟨"https", "store.example.com", "/repo"⟩⟩

/-- The response body of the spec's end-to-end example. -/
def exampleBody : String := "\x7b\"configuration\": \"eyJ2IjoxfQ==\", \"error\": \"\"\x7d"

/-- Modelled from the spec: the §4.2 Variant-B classification — regardless
of HTTP status, decode the body as the operation's envelope; a decode
failure is a DecodeError; a non-empty envelope error string is a
RemoteError carrying exactly that string; otherwise the operation succeeds
with the envelope's payload.  `zero` is the operation's Go zero result
returned alongside an error. -/
def classifyBody {ε α : Type} (dec : String → Except String ε) (envErr : ε → String)
    (payload : ε → α) (zero : α) (body : String) : α × Option StoreErr :=
  match dec body with
  | .error e => (zero, some (.decode e))
  | .ok env =>
    if envErr env ≠ "" then (zero, some (.remote (envErr env)))
    else (payload env, none)

/-- Byte count delivered by a payload reader (`0` when reading fails). -/
def readLen : GoReader → Nat
  | .ok data => data.length
  | .error _ => 0

/-- The `data` bytes of a decoded `data`+`error` envelope (`[]` if the body
does not decode). -/
def bodyData (body : String) : List Byte :=
  match decodeDataErr body with
  | .ok p => p.1
  | .error _ => []

/-- C6: no operation mutates adapter-level state — the adapter value (its
endpoint URL and every other `Store` field) after any call to any of the
adapter's operations is the one it was called with, for every input. -/
theorem operations_preserve_store (s : Store) (ctx : Ctx) (t : Transport)
    (mac : MAC) (rd : GoReader) (offset length : Nat) (config : List Byte) :
    (Open s ctx t).store = s ∧
    (GetStates s ctx t).store = s ∧
    (PutState s ctx t mac rd).store = s ∧
    (GetState s ctx t mac).store = s ∧
    (DeleteState s ctx t mac).store = s ∧
    (GetPackfiles s ctx t).store = s ∧
    (PutPackfile s ctx t mac rd).store = s ∧
    (GetPackfile s ctx t mac).store = s ∧
    (GetPackfileBlob s ctx t mac offset length).store = s ∧
    (DeletePackfile s ctx t mac).store = s ∧
    (GetLocks s ctx t).store = s ∧
    (PutLock s ctx t mac rd).store = s ∧
    (GetLock s ctx t mac).store = s ∧
    (DeleteLock s ctx t mac).store = s ∧
    (Create s ctx config).store = s ∧
    (Close s ctx).store = s ∧
    (Mode s ctx).store = s ∧
    (Size s ctx).store = s ∧
    (Location s ctx).store = s := by
  refine ⟨?_, ?_, ?_, ?_, ?_, ?_, ?_, ?_, ?_, ?_, ?_, ?_, ?_, ?_, ?_, ?_, ?_, ?_, ?_⟩ <;>
    simp only [Open, GetStates, PutState, GetState, DeleteState, GetPackfiles,
      PutPackfile, GetPackfile, GetPackfileBlob, DeletePackfile, GetLocks,
      PutLock, GetLock, DeleteLock, Create, Close, Mode, Size, Location,
      sendRequest] <;>
    repeat' first | rfl | split

/-- C2: every one of the fourteen operations applies the same Variant-B
classification to the response: the HTTP status code is never consulted
(the right-hand sides below do not mention `status`), a decode failure
yields a DecodeError, a non-empty envelope error field yields a RemoteError
carrying exactly that string, and otherwise the operation succeeds with the
envelope's payload fields. -/
theorem uniform_response_classification (s : Store) (ctx : Ctx) (status : Nat)
    (body : String) (mac : MAC) (data : List Byte) (offset length : Nat) :
    (((Open s ctx (constT status body)).value, (Open s ctx (constT status body)).err) =
      classifyBody decodeResOpen ResOpen.err (fun env => some env.configuration) none body) ∧
    (((GetStates s ctx (constT status body)).value, (GetStates s ctx (constT status body)).err) =
      classifyBody decodeResGetStates ResGetStates.err ResGetStates.macs none body) ∧
    (((PutState s ctx (constT status body) mac (.ok data)).value,
      (PutState s ctx (constT status body) mac (.ok data)).err) =
      classifyBody decodeResPutState ResPutState.err (fun _ => (data.length : Int)) 0 body) ∧
    (((GetState s ctx (constT status body) mac).value, (GetState s ctx (constT status body) mac).err) =
      classifyBody decodeResGetState ResGetState.err
        (fun env => some (ReadCloser.nopCloser env.data)) none body) ∧
    (((DeleteState s ctx (constT status body) mac).value, (DeleteState s ctx (constT status body) mac).err) =
      classifyBody decodeResDeleteState ResDeleteState.err (fun _ => ()) () body) ∧
    (((GetPackfiles s ctx (constT status body)).value, (GetPackfiles s ctx (constT status body)).err) =
      classifyBody decodeResGetPackfiles ResGetPackfiles.err ResGetPackfiles.macs none body) ∧
    (((PutPackfile s ctx (constT status body) mac (.ok data)).value,
      (PutPackfile s ctx (constT status body) mac (.ok data)).err) =
      classifyBody decodeResPutPackfile ResPutPackfile.err (fun _ => (data.length : Int)) 0 body) ∧
    (((GetPackfile s ctx (constT status body) mac).value, (GetPackfile s ctx (constT status body) mac).err) =
      classifyBody decodeResGetPackfile ResGetPackfile.err
        (fun env => some (ReadCloser.nopCloser env.data)) none body) ∧
    (((GetPackfileBlob s ctx (constT status body) mac offset length).value,
      (GetPackfileBlob s ctx (constT status body) mac offset length).err) =
      classifyBody decodeResGetPackfileBlob ResGetPackfileBlob.err
        (fun env => some (ReadCloser.nopCloser env.data)) none body) ∧
    (((DeletePackfile s ctx (constT status body) mac).value, (DeletePackfile s ctx (constT status body) mac).err) =
      classifyBody decodeResDeletePackfile ResDeletePackfile.err (fun _ => ()) () body) ∧
    (((GetLocks s ctx (constT status body)).value, (GetLocks s ctx (constT status body)).err) =
      classifyBody decodeResGetLocks ResGetLocks.err ResGetLocks.locks (some []) body) ∧
    (((PutLock s ctx (constT status body) mac (.ok data)).value,
      (PutLock s ctx (constT status body) mac (.ok data)).err) =
      classifyBody decodeResPutLock ResPutLock.err (fun _ => (data.length : Int)) 0 body) ∧
    (((GetLock s ctx (constT status body) mac).value, (GetLock s ctx (constT status body) mac).err) =
      classifyBody decodeResGetLock ResGetLock.err
        (fun env => some (ReadCloser.nopCloser env.data)) none body) ∧
    (((DeleteLock s ctx (constT status body) mac).value, (DeleteLock s ctx (constT status body) mac).err) =
      classifyBody decodeResDeleteLock ResDeleteLock.err (fun _ => ()) () body) := by
  refine ⟨?_, ?_, ?_, ?_, ?_, ?_, ?_, ?_, ?_, ?_, ?_, ?_, ?_, ?_⟩
  · simp only [Open, sendRequest, constT, classifyBody]
    cases h : decodeResOpen body with
    | error e => simp [h]
    | ok env => by_cases he : env.err = "" <;> simp [h, he]
  · simp only [GetStates, sendRequest, constT, classifyBody]
    cases h : decodeResGetStates body with
    | error e => simp [h]
    | ok env => by_cases he : env.err = "" <;> simp [h, he]
  · simp only [PutState, sendRequest, constT, classifyBody]
    cases h : decodeResPutState body with
    | error e => simp [h]
    | ok env => by_cases he : env.err = "" <;> simp [h, he]
  · simp only [GetState, sendRequest, constT, classifyBody]
    cases h : decodeResGetState body with
    | error e => simp [h]
    | ok env => by_cases he : env.err = "" <;> simp [h, he]
  · simp only [DeleteState, sendRequest, constT, classifyBody]
    cases h : decodeResDeleteState body with
    | error e => simp [h]
    | ok env => by_cases he : env.err = "" <;> simp [h, he]
  · simp only [GetPackfiles, sendRequest, constT, classifyBody]
    cases h : decodeResGetPackfiles body with
    | error e => simp [h]
    | ok env => by_cases he : env.err = "" <;> simp [h, he]
  · simp only [PutPackfile, sendRequest, constT, classifyBody]
    cases h : decodeResPutPackfile body with
    | error e => simp [h]
    | ok env => by_cases he : env.err = "" <;> simp [h, he]
  · simp only [GetPackfile, sendRequest, constT, classifyBody]
    cases h : decodeResGetPackfile body with
    | error e => simp [h]
    | ok env => by_cases he : env.err = "" <;> simp [h, he]
  · simp only [GetPackfileBlob, sendRequest, constT, classifyBody]
    cases h : decodeResGetPackfileBlob body with
    | error e => simp [h]
    | ok env => by_cases he : env.err = "" <;> simp [h, he]
  · simp only [DeletePackfile, sendRequest, constT, classifyBody]
    cases h : decodeResDeletePackfile body with
    | error e => simp [h]
    | ok env => by_cases he : env.err = "" <;> simp [h, he]
  · simp only [GetLocks, sendRequest, constT, classifyBody]
    cases h : decodeResGetLocks body with
    | error e => simp [h]
    | ok env => by_cases he : env.err = "" <;> simp [h, he]
  · simp only [PutLock, sendRequest, constT, classifyBody]
    cases h : decodeResPutLock body with
    | error e => simp [h]
    | ok env => by_cases he : env.err = "" <;> simp [h, he]
  · simp only [GetLock, sendRequest, constT, classifyBody]
    cases h : decodeResGetLock body with
    | error e => simp [h]
    | ok env => by_cases he : env.err = "" <;> simp [h, he]
  · simp only [DeleteLock, sendRequest, constT, classifyBody]
    cases h : decodeResDeleteLock body with
    | error e => simp [h]
    | ok env => by_cases he : env.err = "" <;> simp [h, he]

/-- C1 (counterexample): for the configuration map mapping `location` to
`ftp://example.com` — a scheme that is neither `http` nor `https` —
`NewStore` succeeds and returns an adapter, contradicting the claim that
construction must fail for every non-`http`/`https` input. -/
theorem newStore_accepts_ftp_location :
    NewStore false "ftp" [("location", "ftp://example.com")] =
      .ok { config := (), repository := "",
            location := { scheme := "ftp", host := "example.com", path := "" } } := by
  decide

/-- C1 (amended): adapter construction fails exactly when Go URL parsing of
the `location` value fails; on success the parsed URL is stored verbatim.
`NewStore` itself performs no scheme or absoluteness check. -/
theorem newStore_fails_iff_parse_fails (ctx : Ctx) (proto : String)
    (cfg : List (String × String)) :
    ((NewStore ctx proto cfg).isOk = (urlParse (lookupConfig cfg "location")).isOk) ∧
    (∀ u, urlParse (lookupConfig cfg "location") = .ok u →
      NewStore ctx proto cfg = .ok { config := (), repository := "", location := u }) := by
  unfold NewStore
  cases h : urlParse (lookupConfig cfg "location") with
  | error e => exact ⟨rfl, fun u hu => by cases hu⟩
  | ok u => exact ⟨rfl, fun v hv => by injection hv with h2; rw [h2]⟩

/-- C1 (witness): the amended theorem applied at a well-formed `https`
location. -/
theorem newStore_fails_iff_parse_fails_witness :
    NewStore false "https" [("location", "https://store.example.com/repo")] =
      .ok { config := (), repository := "",
            location := { scheme := "https", host := "store.example.com", path := "/repo" } } :=
  (newStore_fails_iff_parse_fails false "https"
      [("location", "https://store.example.com/repo")]).2
    { scheme := "https", host := "store.example.com", path := "/repo" } (by decide)

/-- C3 (counterexample): for the adapter constructed with location
`https://store.example.com/repo`, the URL Open actually requests is
`https://store.example.com/repo` — not `https://store.example.com/repo/`
as the claim states; `path.Join` cleans away the trailing slash. -/
theorem open_url_without_trailing_slash :
    (Open exampleStore false (constT 200 exampleBody)).trace.map Request.url ≠
      ["https://store.example.com/repo/"] := by
  decide

/-- C3 (amended): the target URL of every request of every operation is the
endpoint's path joined with that operation's fixed subpath through
`path.Join` (segments concatenated and cleaned, so no `..` survives and a
trailing slash is dropped); in particular the adapter constructed with
location `https://store.example.com/repo` has Open issue
`GET https://store.example.com/repo` carrying the empty JSON envelope and,
on the example response, return the bytes of `{"v":1}`. -/
theorem open_join_and_example :
    (∀ s ctx t (mac : MAC) (data : List Byte) (offset length : Nat),
      (Open s ctx t).trace.map Request.url =
        [urlString { s.location with path := pathJoin s.location.path "/" }] ∧
      (GetStates s ctx t).trace.map Request.url =
        [urlString { s.location with path := pathJoin s.location.path "/states" }] ∧
      (PutState s ctx t mac (.ok data)).trace.map Request.url =
        [urlString { s.location with path := pathJoin s.location.path "/state" }] ∧
      (GetState s ctx t mac).trace.map Request.url =
        [urlString { s.location with path := pathJoin s.location.path "/state" }] ∧
      (DeleteState s ctx t mac).trace.map Request.url =
        [urlString { s.location with path := pathJoin s.location.path "/state" }] ∧
      (GetPackfiles s ctx t).trace.map Request.url =
        [urlString { s.location with path := pathJoin s.location.path "/packfiles" }] ∧
      (PutPackfile s ctx t mac (.ok data)).trace.map Request.url =
        [urlString { s.location with path := pathJoin s.location.path "/packfile" }] ∧
      (GetPackfile s ctx t mac).trace.map Request.url =
        [urlString { s.location with path := pathJoin s.location.path "/packfile" }] ∧
      (GetPackfileBlob s ctx t mac offset length).trace.map Request.url =
        [urlString { s.location with path := pathJoin s.location.path "/packfile/blob" }] ∧
      (DeletePackfile s ctx t mac).trace.map Request.url =
        [urlString { s.location with path := pathJoin s.location.path "/packfile" }] ∧
      (GetLocks s ctx t).trace.map Request.url =
        [urlString { s.location with path := pathJoin s.location.path "/locks" }] ∧
      (PutLock s ctx t mac (.ok data)).trace.map Request.url =
        [urlString { s.location with path := pathJoin s.location.path "/lock" }] ∧
      (GetLock s ctx t mac).trace.map Request.url =
        [urlString { s.location with path := pathJoin s.location.path "/lock" }] ∧
      (DeleteLock s ctx t mac).trace.map Request.url =
        [urlString { s.location with path := pathJoin s.location.path "/lock" }]) ∧
    NewStore false "https" [("location", "https://store.example.com/repo")] =
      .ok exampleStore ∧
    Open exampleStore false (constT 200 exampleBody) =
      ⟨exampleStore,
       [⟨"GET", "https://store.example.com/repo", "application/json", "{}"⟩],
       some [123, 34, 118, 34, 58, 49, 125], none⟩ := by
  refine ⟨?_, by decide, by decide⟩
  intro s ctx t mac data offset length
  refine ⟨?_, ?_, ?_, ?_, ?_, ?_, ?_, ?_, ?_, ?_, ?_, ?_, ?_, ?_⟩ <;>
    simp only [Open, GetStates, PutState, GetState, DeleteState, GetPackfiles,
      PutPackfile, GetPackfile, GetPackfileBlob, DeletePackfile, GetLocks,
      PutLock, GetLock, DeleteLock, sendRequest] <;>
    repeat' first | rfl | split

/-- C4 (divergence witness): the adapter never consults the calling
context — the context is not attached to the outgoing HTTP request — so a
cancelled context neither aborts the in-flight request nor yields a
cancellation error: with the context already cancelled, Open still
completes with the transport's response, and every operation returns
identical results for cancelled and uncancelled contexts. -/
theorem context_cancellation_ignored :
    ((Open exampleStore true (constT 200 exampleBody)).err = none ∧
     (Open exampleStore true (constT 200 exampleBody)).value =
       some [123, 34, 118, 34, 58, 49, 125]) ∧
    (∀ s t mac rd offset length,
      Open s true t = Open s false t ∧
      GetStates s true t = GetStates s false t ∧
      PutState s true t mac rd = PutState s false t mac rd ∧
      GetState s true t mac = GetState s false t mac ∧
      DeleteState s true t mac = DeleteState s false t mac ∧
      GetPackfiles s true t = GetPackfiles s false t ∧
      PutPackfile s true t mac rd = PutPackfile s false t mac rd ∧
      GetPackfile s true t mac = GetPackfile s false t mac ∧
      GetPackfileBlob s true t mac offset length =
        GetPackfileBlob s false t mac offset length ∧
      DeletePackfile s true t mac = DeletePackfile s false t mac ∧
      GetLocks s true t = GetLocks s false t ∧
      PutLock s true t mac rd = PutLock s false t mac rd ∧
      GetLock s true t mac = GetLock s false t mac ∧
      DeleteLock s true t mac = DeleteLock s false t mac) :=
  ⟨⟨by decide, by decide⟩, fun s t mac rd offset length =>
    ⟨rfl, rfl, rfl, rfl, rfl, rfl, rfl, rfl, rfl, rfl, rfl, rfl, rfl, rfl⟩⟩

/-- C5: each Put operation that succeeds returns exactly the byte count of
the input payload, and returns `0` alongside the error whenever reading the
payload, sending the request, decoding the response, or the envelope's
error field fails; a payload-read failure is reported before any request is
issued. -/
theorem put_returns_payload_length (s : Store) (ctx : Ctx) (t : Transport)
    (mac : MAC) (rd : GoReader) :
    ((PutState s ctx t mac rd).value =
      if (PutState s ctx t mac rd).err = none then (readLen rd : Int) else 0) ∧
    ((PutPackfile s ctx t mac rd).value =
      if (PutPackfile s ctx t mac rd).err = none then (readLen rd : Int) else 0) ∧
    ((PutLock s ctx t mac rd).value =
      if (PutLock s ctx t mac rd).err = none then (readLen rd : Int) else 0) ∧
    (∀ e, PutState s ctx t mac (.error e) = ⟨s, [], 0, some (.readFail e)⟩) ∧
    (∀ e, PutPackfile s ctx t mac (.error e) = ⟨s, [], 0, some (.readFail e)⟩) ∧
    (∀ e, PutLock s ctx t mac (.error e) = ⟨s, [], 0, some (.readFail e)⟩) := by
  refine ⟨?_, ?_, ?_, fun e => rfl, fun e => rfl, fun e => rfl⟩ <;>
    (cases rd with
     | error e => rfl
     | ok data =>
       simp only [PutState, PutPackfile, PutLock, sendRequest, readLen]
       repeat' first | rfl | split
       all_goals simp_all)

/-- C7: the capability-reporting operations have fixed, non-networked
answers: Mode always reports read-write, Size always returns the
unknown-size sentinel `-1`, and Close and Create always succeed as no-ops;
none of them issues a request or returns an error. -/
theorem capability_ops_fixed (s : Store) (ctx : Ctx) (config : List Byte) :
    Mode s ctx = ⟨s, [], ModeRead ||| ModeWrite, none⟩ ∧
    Size s ctx = ⟨s, [], -1, none⟩ ∧
    Close s ctx = ⟨s, [], (), none⟩ ∧
    Create s ctx config = ⟨s, [], (), none⟩ :=
  ⟨rfl, rfl, rfl, rfl⟩

/-- C8: every outbound request — including the GETs of the parameterless
list operations and the GET/DELETE requests of the per-object operations —
carries the operation's JSON-marshalled request envelope as its body
(`{}`-shaped for the parameterless operations) and the header
`Content-Type: application/json`. -/
theorem requests_carry_json_envelope (s : Store) (ctx : Ctx) (t : Transport)
    (mac : MAC) (data : List Byte) (offset length : Nat) :
    (Open s ctx t).trace.map (fun r => (r.method, r.contentType, r.body)) =
      [("GET", "application/json", "{}")] ∧
    (GetStates s ctx t).trace.map (fun r => (r.method, r.contentType, r.body)) =
      [("GET", "application/json", "{}")] ∧
    (GetPackfiles s ctx t).trace.map (fun r => (r.method, r.contentType, r.body)) =
      [("GET", "application/json", "{}")] ∧
    (GetLocks s ctx t).trace.map (fun r => (r.method, r.contentType, r.body)) =
      [("GET", "application/json", "{}")] ∧
    (PutState s ctx t mac (.ok data)).trace.map (fun r => (r.method, r.contentType, r.body)) =
      [("PUT", "application/json", marshalReqMacData mac data)] ∧
    (GetState s ctx t mac).trace.map (fun r => (r.method, r.contentType, r.body)) =
      [("GET", "application/json", marshalReqMac mac)] ∧
    (DeleteState s ctx t mac).trace.map (fun r => (r.method, r.contentType, r.body)) =
      [("DELETE", "application/json", marshalReqMac mac)] ∧
    (PutPackfile s ctx t mac (.ok data)).trace.map (fun r => (r.method, r.contentType, r.body)) =
      [("PUT", "application/json", marshalReqMacData mac data)] ∧
    (GetPackfile s ctx t mac).trace.map (fun r => (r.method, r.contentType, r.body)) =
      [("GET", "application/json", marshalReqMac mac)] ∧
    (GetPackfileBlob s ctx t mac offset length).trace.map
        (fun r => (r.method, r.contentType, r.body)) =
      [("GET", "application/json", marshalReqGetPackfileBlob mac offset length)] ∧
    (DeletePackfile s ctx t mac).trace.map (fun r => (r.method, r.contentType, r.body)) =
      [("DELETE", "application/json", marshalReqMac mac)] ∧
    (PutLock s ctx t mac (.ok data)).trace.map (fun r => (r.method, r.contentType, r.body)) =
      [("PUT", "application/json", marshalReqMacData mac data)] ∧
    (GetLock s ctx t mac).trace.map (fun r => (r.method, r.contentType, r.body)) =
      [("GET", "application/json", marshalReqMac mac)] ∧
    (DeleteLock s ctx t mac).trace.map (fun r => (r.method, r.contentType, r.body)) =
      [("DELETE", "application/json", marshalReqMac mac)] := by
  refine ⟨?_, ?_, ?_, ?_, ?_, ?_, ?_, ?_, ?_, ?_, ?_, ?_, ?_, ?_⟩ <;>
    simp only [Open, GetStates, GetPackfiles, GetLocks, PutState, GetState,
      DeleteState, PutPackfile, GetPackfile, GetPackfileBlob, DeletePackfile,
      PutLock, GetLock, DeleteLock, sendRequest] <;>
    repeat' first | rfl | split

/-- C9: whenever a list operation fails, the MAC list it returns alongside
the error contains no elements — GetStates and GetPackfiles return the nil
slice, GetLocks the empty non-nil slice — so a failed listing is always
distinguishable from a successful empty one by the returned error. -/
theorem failed_lists_return_no_macs (s : Store) (ctx : Ctx) (t : Transport) :
    ((GetStates s ctx t).err ≠ none → (GetStates s ctx t).value = none) ∧
    ((GetPackfiles s ctx t).err ≠ none → (GetPackfiles s ctx t).value = none) ∧
    ((GetLocks s ctx t).err ≠ none → (GetLocks s ctx t).value = some []) := by
  refine ⟨?_, ?_, ?_⟩ <;>
    simp only [GetStates, GetPackfiles, GetLocks, sendRequest] <;>
    (repeat' split) <;> simp

/-- C9 (witness): the theorem applied to a transport that refuses every
connection. -/
theorem failed_lists_return_no_macs_witness :
    (GetStates exampleStore false (errT "connection refused")).value = none ∧
    (GetPackfiles exampleStore false (errT "connection refused")).value = none ∧
    (GetLocks exampleStore false (errT "connection refused")).value = some [] :=
  ⟨(failed_lists_return_no_macs exampleStore false (errT "connection refused")).1 (by decide),
   (failed_lists_return_no_macs exampleStore false (errT "connection refused")).2.1 (by decide),
   (failed_lists_return_no_macs exampleStore false (errT "connection refused")).2.2 (by decide)⟩

/-- C10: every successful Get-style operation returns a fully in-memory
stream: the `NopCloser` over exactly the `Data` bytes of the decoded
response envelope; reading such a stream to the end yields those bytes and
closing it always succeeds without effect. -/
theorem get_returns_memory_stream (s : Store) (ctx : Ctx) (status : Nat)
    (body : String) (mac : MAC) (offset length : Nat) :
    ((GetState s ctx (constT status body) mac).err = none →
      (GetState s ctx (constT status body) mac).value =
        some (ReadCloser.nopCloser (bodyData body))) ∧
    ((GetPackfile s ctx (constT status body) mac).err = none →
      (GetPackfile s ctx (constT status body) mac).value =
        some (ReadCloser.nopCloser (bodyData body))) ∧
    ((GetPackfileBlob s ctx (constT status body) mac offset length).err = none →
      (GetPackfileBlob s ctx (constT status body) mac offset length).value =
        some (ReadCloser.nopCloser (bodyData body))) ∧
    ((GetLock s ctx (constT status body) mac).err = none →
      (GetLock s ctx (constT status body) mac).value =
        some (ReadCloser.nopCloser (bodyData body))) ∧
    (∀ d, readAllRC (ReadCloser.nopCloser d) = d ∧
          closeRC (ReadCloser.nopCloser d) = none) := by
  refine ⟨?_, ?_, ?_, ?_, fun d => ⟨rfl, rfl⟩⟩ <;>
    (intro h
     simp only [GetState, GetPackfile, GetPackfileBlob, GetLock, sendRequest,
       constT, decodeResGetState, decodeResGetPackfile, decodeResGetPackfileBlob,
       decodeResGetLock, bodyData] at h ⊢
     cases hd : decodeDataErr body with
     | error e => rw [hd] at h; simp [Except.map] at h
     | ok p =>
       rw [hd] at h
       by_cases he : p.2 = ""
       · simp [Except.map, he]
       · simp [Except.map, he] at h)

/-- C10 (witness): the theorem applied at a response whose envelope carries
the data bytes `abc`. -/
theorem get_returns_memory_stream_witness :
    (GetState exampleStore false
        (constT 200 "\x7b\"data\":\"YWJj\",\"error\":\"\"\x7d") (List.replicate 32 0)).value =
      some (ReadCloser.nopCloser [97, 98, 99]) ∧
    (GetPackfile exampleStore false
        (constT 200 "\x7b\"data\":\"YWJj\",\"error\":\"\"\x7d") (List.replicate 32 0)).value =
      some (ReadCloser.nopCloser [97, 98, 99]) ∧
    (GetPackfileBlob exampleStore false
        (constT 200 "\x7b\"data\":\"YWJj\",\"error\":\"\"\x7d") (List.replicate 32 0) 0 3).value =
      some (ReadCloser.nopCloser [97, 98, 99]) ∧
    (GetLock exampleStore false
        (constT 200 "\x7b\"data\":\"YWJj\",\"error\":\"\"\x7d") (List.replicate 32 0)).value =
      some (ReadCloser.nopCloser [97, 98, 99]) :=
  ⟨(get_returns_memory_stream exampleStore false 200 "\x7b\"data\":\"YWJj\",\"error\":\"\"\x7d"
      (List.replicate 32 0) 0 3).1 (by decide),
   (get_returns_memory_stream exampleStore false 200 "\x7b\"data\":\"YWJj\",\"error\":\"\"\x7d"
      (List.replicate 32 0) 0 3).2.1 (by decide),
   (get_returns_memory_stream exampleStore false 200 "\x7b\"data\":\"YWJj\",\"error\":\"\"\x7d"
      (List.replicate 32 0) 0 3).2.2.1 (by decide),
   (get_returns_memory_stream exampleStore false 200 "\x7b\"data\":\"YWJj\",\"error\":\"\"\x7d"
      (List.replicate 32 0) 0 3).2.2.2.1 (by decide)⟩

end HttpStore
